import Mathlib

/-!
Verification development for the `ama-tyc-service` repository (consent-request
lifecycle service).  The service keeps consent requests ("solicitudes TyC") in a
process-local cache (a JS `Map` keyed by token) and in a Postgres table
(`tyc_solicitudes`), moves them through the states CREADA / ABIERTA / ACEPTADA /
EXPIRADA, and notifies an external system through HMAC-SHA256-signed webhooks.

The repository ships two generations of the same route handlers:
  * `src/tycRoutes.js` — the legacy handlers (cache-only reads, no persistence of
    acceptance or expiry, no dedup of the "expired" webhook); embedded below in
    namespace `Legacy`.
  * `src/internalAuth.js` (after the auth middleware) — the newer handlers
    (cache-then-store reads with rehydration, conditional acceptance write,
    expiry persisted and dispatched at most once); embedded below in namespace
    `V2`.
The creation handler and the cron sweep are byte-identical in both generations
and are embedded once.

Modelling conventions:
  * ISO-8601 timestamps are abstracted to natural numbers (milliseconds); the
    JS `new Date(iso)` comparisons are order-isomorphic to `Nat` comparisons.
  * Strings are treated as sequences of Unicode code points; for the byte-level
    hash computations they are assumed ASCII (code point = byte), which holds
    for every string the service feeds to the HMAC.
  * Database effects are explicit: each handler returns the successful writes
    it performed, the writes it attempted while the store reported a failure,
    and the webhook calls it dispatched.  Query outcomes are driven by a list
    of booleans (`fx`), consumed in program order; a missing entry means the
    query succeeds.
-/

namespace Sha256

/-- Truncation to a 32-bit word. -/
def w32 (x : Nat) : Nat := x % 4294967296

/-- Right rotation of a 32-bit word by `n` (for `n ≤ 32`). -/
def rotr32 (x n : Nat) : Nat := w32 (x / 2 ^ n + x % 2 ^ n * 2 ^ (32 - n))

/-- Bitwise complement of a 32-bit word. -/
def not32 (x : Nat) : Nat := 4294967295 - w32 x

/-- The SHA-256 choice function. -/
def chF (x y z : Nat) : Nat := (x &&& y) ^^^ (not32 x &&& z)

/-- The SHA-256 majority function. -/
def majF (x y z : Nat) : Nat := (x &&& y) ^^^ (x &&& z) ^^^ (y &&& z)

/-- Big sigma 0. -/
def bs0 (x : Nat) : Nat := rotr32 x 2 ^^^ rotr32 x 13 ^^^ rotr32 x 22

/-- Big sigma 1. -/
def bs1 (x : Nat) : Nat := rotr32 x 6 ^^^ rotr32 x 11 ^^^ rotr32 x 25

/-- Small sigma 0. -/
def ls0 (x : Nat) : Nat := rotr32 x 7 ^^^ rotr32 x 18 ^^^ x / 2 ^ 3

/-- Small sigma 1. -/
def ls1 (x : Nat) : Nat := rotr32 x 17 ^^^ rotr32 x 19 ^^^ x / 2 ^ 10

/-- The eight initial hash words of SHA-256 (FIPS 180-4). -/
def ivWords : List Nat :=
  [1779033703, 3144134277, 1013904242, 2773480762,
   1359893119, 2600822924, 528734635, 1541459225]

/-- The sixty-four SHA-256 round constants (FIPS 180-4). -/
def kWords : List Nat :=
  [1116352408, 1899447441, 3049323471, 3921009573,
   961987163, 1508970993, 2453635748, 2870763221,
   3624381080, 310598401, 607225278, 1426881987,
   1925078388, 2162078206, 2614888103, 3248222580,
   3835390401, 4022224774, 264347078, 604807628,
   770255983, 1249150122, 1555081692, 1996064986,
   2554220882, 2821834349, 2952996808, 3210313671,
   3336571891, 3584528711, 113926993, 338241895,
   666307205, 773529912, 1294757372, 1396182291,
   1695183700, 1986661051, 2177026350, 2456956037,
   2730485921, 2820302411, 3259730800, 3345764771,
   3516065817, 3600352804, 4094571909, 275423344,
   430227734, 506948616, 659060556, 883997877,
   958139571, 1322822218, 1537002063, 1747873779,
   1955562222, 2024104815, 2227730452, 2361852424,
   2428436474, 2756734187, 3204031479, 3329325298]

/-- Big-endian word from four bytes. -/
def beWord (a b c d : Nat) : Nat := ((a * 256 + b) * 256 + c) * 256 + d

/-- Split a 64-byte block into sixteen big-endian 32-bit words. -/
def toWords : List Nat → List Nat
  | a :: b :: c :: d :: rest => beWord a b c d :: toWords rest
  | _ => []

/-- One message-schedule extension step: append word `w[t]` computed from the
last sixteen words. -/
def extendStep (ws : List Nat) : List Nat :=
  let n := ws.length
  ws ++ [w32 (ls1 (ws.getD (n - 2) 0) + ws.getD (n - 7) 0 +
              ls0 (ws.getD (n - 15) 0) + ws.getD (n - 16) 0)]

/-- Iterate the message-schedule extension `n` times. -/
def extendN : Nat → List Nat → List Nat
  | 0, ws => ws
  | n + 1, ws => extendN n (extendStep ws)

/-- One compression round on the eight-word working state. -/
def roundF (kw ww : Nat) : List Nat → List Nat
  | [a, b, c, d, e, f, g, h] =>
    let t1 := w32 (h + bs1 e + chF e f g + kw + ww)
    let t2 := w32 (bs0 a + majF a b c)
    [w32 (t1 + t2), a, b, c, w32 (d + t1), e, f, g]
  | st => st

/-- Run the sixty-four rounds over the zipped constants and schedule. -/
def roundsF : List (Nat × Nat) → List Nat → List Nat
  | [], st => st
  | p :: rest, st => roundsF rest (roundF p.1 p.2 st)

/-- Compress one 64-byte block into the running state. -/
def compressBlock (st : List Nat) (block : List Nat) : List Nat :=
  let ws := extendN 48 (toWords block)
  let st2 := roundsF (kWords.zip ws) st
  (st.zip st2).map (fun p => w32 (p.1 + p.2))

/-- Split a padded message into 64-byte blocks. -/
def blocks (msg : List Nat) : List (List Nat) :=
  if msg.length = 0 then []
  else msg.take 64 :: blocks (msg.drop 64)
  termination_by msg.length
  decreasing_by
    simp only [List.length_drop]
    omega

/-- Big-endian 8-byte encoding of a 64-bit length. -/
def be64 (x : Nat) : List Nat :=
  [x / 2 ^ 56 % 256, x / 2 ^ 48 % 256, x / 2 ^ 40 % 256, x / 2 ^ 32 % 256,
   x / 2 ^ 24 % 256, x / 2 ^ 16 % 256, x / 2 ^ 8 % 256, x % 256]

/-- Big-endian 4-byte encoding of a 32-bit word. -/
def be32 (x : Nat) : List Nat :=
  [x / 2 ^ 24 % 256, x / 2 ^ 16 % 256, x / 2 ^ 8 % 256, x % 256]

/-- SHA-256 padding: append `0x80`, zeros, then the bit length. -/
def padMsg (msg : List Nat) : List Nat :=
  msg ++ 128 :: List.replicate ((119 - msg.length % 64) % 64) 0 ++
    be64 (msg.length * 8)

/-- SHA-256 of a byte list, as a 32-byte list. -/
def sha256Bytes (msg : List Nat) : List Nat :=
  (((blocks (padMsg msg)).foldl compressBlock ivWords).map be32).flatten

/-- Hexadecimal digit character. -/
def hexDigit (n : Nat) : Char :=
  if n < 10 then Char.ofNat (48 + n) else Char.ofNat (87 + n)

/-- Two-digit lowercase hex rendering of one byte. -/
def byteHex (b : Nat) : String := String.mk [hexDigit (b / 16), hexDigit (b % 16)]

/-- Lowercase hex rendering of a byte list. -/
def bytesHex (bs : List Nat) : String := String.join (bs.map byteHex)

/-- Code points of a string (byte values under the ASCII abstraction). -/
def strBytes (s : String) : List Nat := s.toList.map Char.toNat

/-- HMAC-SHA256 (FIPS 198-1) over byte lists, 64-byte block size. -/
def hmacSha256Bytes (key msg : List Nat) : List Nat :=
  let k0 :=
    if 64 < key.length then sha256Bytes key ++ List.replicate 32 0
    else key ++ List.replicate (64 - key.length) 0
  let ikey := k0.map (fun b => b ^^^ 54)
  let okey := k0.map (fun b => b ^^^ 92)
  sha256Bytes (okey ++ sha256Bytes (ikey ++ msg))

/-- Hex digest of HMAC-SHA256 over strings, mirroring
`crypto.createHmac('sha256', secret).update(body).digest('hex')`. -/
def hmacSha256Hex (key msg : String) : String :=
  bytesHex (hmacSha256Bytes (strBytes key) (strBytes msg))

/-- Hex digest of SHA-256 over a string, mirroring
`crypto.createHash('sha256').update(s).digest('hex')`. -/
def sha256Hex (s : String) : String := bytesHex (sha256Bytes (strBytes s))

end Sha256

namespace Tyc

/-- The four request states (`STATES` in both route files). -/
inductive Estado
  | CREADA
  | ABIERTA
  | ACEPTADA
  | EXPIRADA
deriving DecidableEq, Repr

/-- String rendering of a state, as stored and serialized by the service. -/
def Estado.str : Estado → String
  | .CREADA => "CREADA"
  | .ABIERTA => "ABIERTA"
  | .ACEPTADA => "ACEPTADA"
  | .EXPIRADA => "EXPIRADA"

/-- The in-memory request object (the value type of the `solicitudesTyC` map). -/
structure Solicitud where
  tycSolicitudId : String
  preclienteId : String
  canal : String
  token : String
  estado : Estado
  createdAt : Nat
  expiresAt : Nat
  webhookUrl : Option String
  metadata : List (String × String)
  openedAt : Option Nat
  acceptedAt : Option Nat
  acceptedIp : Option String
  acceptedUserAgent : Option String
deriving DecidableEq, Repr

/-- One row of the `tyc_solicitudes` table, with the columns the service reads
and writes. -/
structure DbRow where
  tyc_solicitud_id : String
  precliente_id : String
  token : String
  token_hash : String
  canal : String
  webhook_url : Option String
  metadata : List (String × String)
  estado : Estado
  created_at : Nat
  expires_at : Nat
  opened_at : Option Nat
  accepted_at : Option Nat
  accepted_ip : Option String
deriving DecidableEq, Repr

/-- First-match association-list lookup (JS `Map.get`; keys are unique in a
`Map`, so first-match agrees with it). -/
def getEntry (m : List (String × α)) (k : String) : Option α :=
  match m with
  | [] => none
  | (k1, v) :: rest => if k1 = k then some v else getEntry rest k

/-- Replace the first binding of `k`, or append one (JS `Map.set`). -/
def setEntry (m : List (String × α)) (k : String) (v : α) : List (String × α) :=
  match m with
  | [] => [(k, v)]
  | (k1, v1) :: rest => if k1 = k then (k, v) :: rest else (k1, v1) :: setEntry rest k v

/-- The process-local cache (`solicitudesTyC`). -/
abbrev Cache := List (String × Solicitud)

/-- The durable store (table `tyc_solicitudes`), keyed by token. -/
abbrev Store := List (String × DbRow)

/-- The SQL mutations the route handlers issue. -/
inductive StoreWrite
  | insertRow (r : DbRow)
  | setExpirada (token : String)
  | setOpened (token : String) (now : Nat)
  | setAccepted (token : String) (ip : Option String) (now : Nat)
deriving DecidableEq, Repr

/-- Update every row matching `p` through `f`, returning the new store and the
row count (`UPDATE ... WHERE p`). -/
def updWhere (st : Store) (p : DbRow → Bool) (f : DbRow → DbRow) : Store × Nat :=
  match st with
  | [] => ([], 0)
  | (k, r) :: rest =>
    let tail := updWhere rest p f
    if p r then ((k, f r) :: tail.1, tail.2 + 1) else ((k, r) :: tail.1, tail.2)

/-- Semantics of each SQL mutation on the store (with its `rowCount`).
`setOpened` mirrors `SET opened_at = COALESCE(opened_at, NOW()), estado = CASE
WHEN estado = 'CREADA' THEN 'ABIERTA' ELSE estado END`; `setAccepted` mirrors
the conditional `UPDATE ... WHERE token = $1 AND accepted_at IS NULL`. -/
def applyWrite (st : Store) : StoreWrite → Store × Nat
  | .insertRow r => (st ++ [(r.token, r)], 1)
  | .setExpirada tok =>
    updWhere st (fun r => r.token == tok) (fun r => { r with estado := .EXPIRADA })
  | .setOpened tok now =>
    updWhere st (fun r => r.token == tok)
      (fun r =>
        { r with
          opened_at := some (r.opened_at.getD now),
          estado := if r.estado = .CREADA then .ABIERTA else r.estado })
  | .setAccepted tok ip now =>
    updWhere st (fun r => r.token == tok && r.accepted_at.isNone)
      (fun r => { r with accepted_at := some now, accepted_ip := ip, estado := .ACEPTADA })

/-- JS falsiness of an optional string (`!x`): absent or empty. -/
def isBlank : Option String → Bool
  | none => true
  | some s => s.isEmpty

/-- JS `x || d` on an optional string: the default replaces absent or empty. -/
def strOr (o : Option String) (d : String) : String :=
  match o with
  | none => d
  | some s => if s.isEmpty then d else s

/-- Process environment relevant to this service. -/
structure Config where
  webhookSecret : Option String
  tycBaseUrl : Option String
  port : Option String
deriving DecidableEq, Repr

/-- The JSON payload `sendWebhook` builds. -/
structure WebhookPayload where
  evento : String
  preclienteId : String
  tycSolicitudId : String
  estado : Estado
  createdAt : Nat
  expiresAt : Nat
  openedAt : Option Nat
  acceptedAt : Option Nat
deriving DecidableEq, Repr

/-- JSON string literal (service strings carry no characters needing escape). -/
def jsonStr (s : String) : String := "\"" ++ s ++ "\""

/-- Serialized timestamp (ISO string abstracted to the millisecond count). -/
def jsonTime (t : Nat) : String := jsonStr (toString t)

/-- Serialized nullable timestamp. -/
def jsonOptTime : Option Nat → String
  | none => "null"
  | some t => jsonTime t

/-- `JSON.stringify` of the webhook payload, with the exact key order of the
object literal in `sendWebhook`. -/
def serializePayload (p : WebhookPayload) : String :=
  "\x7b" ++
  jsonStr ("evento") ++ ":" ++ jsonStr p.evento ++ "," ++
  jsonStr ("preclienteId") ++ ":" ++ jsonStr p.preclienteId ++ "," ++
  jsonStr ("tycSolicitudId") ++ ":" ++ jsonStr p.tycSolicitudId ++ "," ++
  jsonStr ("estado") ++ ":" ++ jsonStr p.estado.str ++ "," ++
  jsonStr ("createdAt") ++ ":" ++ jsonTime p.createdAt ++ "," ++
  jsonStr ("expiresAt") ++ ":" ++ jsonTime p.expiresAt ++ "," ++
  jsonStr ("openedAt") ++ ":" ++ jsonOptTime p.openedAt ++ "," ++
  jsonStr ("acceptedAt") ++ ":" ++ jsonOptTime p.acceptedAt ++
  "\x7d"

/-- One outbound webhook POST: destination, event header, structured payload,
serialized body and the `X-AMA-Signature` value. -/
structure WebhookCall where
  url : String
  evento : String
  payload : WebhookPayload
  body : String
  signature : String
deriving DecidableEq, Repr

/-- The payload object literal of `sendWebhook`, field by field
(`openedAt: solicitud.openedAt || null`, etc.). -/
def mkPayload (s : Solicitud) (evento : String) : WebhookPayload :=
  { evento := evento,
    preclienteId := s.preclienteId,
    tycSolicitudId := s.tycSolicitudId,
    estado := s.estado,
    createdAt := s.createdAt,
    expiresAt := s.expiresAt,
    openedAt := s.openedAt,
    acceptedAt := s.acceptedAt }

/-- `sendWebhook(solicitud, evento)`: no-op without a `webhookUrl`; otherwise
sign `JSON.stringify(payload)` with `WEBHOOK_SECRET || 'default_secret'` and
POST it.  Delivery failures are swallowed inside the function, so the call
itself is the observable effect. -/
def sendWebhook (cfg : Config) (s : Solicitud) (evento : String) : Option WebhookCall :=
  if isBlank s.webhookUrl then none
  else
    let payload := mkPayload s evento
    let secret := strOr cfg.webhookSecret ("default_secret")
    let bodyStr := serializePayload payload
    some
      { url := s.webhookUrl.getD "",
        evento := evento,
        payload := payload,
        body := bodyStr,
        signature := Sha256.hmacSha256Hex secret bodyStr }

/-- Whether the i-th database query of a handler run succeeds. -/
def qOk (fx : List Bool) (i : Nat) : Bool := fx.getD i true

/-- JSON values appearing in the handlers' `res.json` bodies. -/
inductive Jx
  | str (s : String)
  | num (n : Nat)
  | boolean (b : Bool)
  | null
deriving DecidableEq, Repr

/-- Nullable timestamp as a response-body value. -/
def jxOptTime : Option Nat → Jx
  | none => .null
  | some t => .str (toString t)

/-- Nullable string as a response-body value. -/
def jxOptStr : Option String → Jx
  | none => .null
  | some s => .str s

/-- Result of the creation handler `POST /api/tyc/solicitudes` (identical code
in both route files). -/
structure CreateResult where
  status : Nat
  body : List (String × Jx)
  cache : Cache
  store : Store
  storeWrites : List StoreWrite
  storeFailures : List StoreWrite
deriving DecidableEq, Repr

/-- Request body of the creation handler. -/
structure CreateBody where
  preclienteId : Option String
  canal : Option String
  ttlMinutos : Option Int
  webhookUrl : Option String
  metadata : Option (List (String × String))
deriving DecidableEq, Repr

/-- `POST /api/tyc/solicitudes`: validate, build the request object, INSERT it
into `tyc_solicitudes` (500 on failure, before any cache write), then put it in
the cache and answer with the raw token and the link URL.  `now` stands for
`Date.now()`, `token` for the 16 random bytes rendered as hex. -/
def createSolicitud (cfg : Config) (now : Nat) (token : String) (body : CreateBody)
    (dbOk : Bool) (cache : Cache) (store : Store) : CreateResult :=
  if isBlank body.preclienteId then
    { status := 400,
      body := [("ok", .boolean false), ("error", .str ("preclienteId es obligatorio"))],
      cache := cache, store := store, storeWrites := [], storeFailures := [] }
  else if isBlank body.webhookUrl then
    { status := 400,
      body := [("ok", .boolean false),
               ("error", .str ("webhookUrl es obligatorio (a dónde avisaremos a n8n)"))],
      cache := cache, store := store, storeWrites := [], storeFailures := [] }
  else
    let ttl : Nat :=
      match body.ttlMinutos with
      | some t => if 0 < t then t.toNat else 60
      | none => 60
    let expiresAt := now + ttl * 60 * 1000
    let tokenHash := Sha256.sha256Hex token
    let tycSolicitudId := "TYC-" ++ toString now
    let s : Solicitud :=
      { tycSolicitudId := tycSolicitudId,
        preclienteId := body.preclienteId.getD "",
        canal := strOr body.canal ("WHATSAPP"),
        token := token,
        estado := .CREADA,
        createdAt := now,
        expiresAt := expiresAt,
        webhookUrl := body.webhookUrl,
        metadata := body.metadata.getD [],
        openedAt := none,
        acceptedAt := none,
        acceptedIp := none,
        acceptedUserAgent := none }
    let row : DbRow :=
      { tyc_solicitud_id := tycSolicitudId,
        precliente_id := s.preclienteId,
        token := token,
        token_hash := tokenHash,
        canal := s.canal,
        webhook_url := body.webhookUrl,
        metadata := s.metadata,
        estado := .CREADA,
        created_at := now,
        expires_at := expiresAt,
        opened_at := none,
        accepted_at := none,
        accepted_ip := none }
    if dbOk then
      let baseUrl := strOr cfg.tycBaseUrl ("http://localhost:" ++ strOr cfg.port ("3002"))
      { status := 200,
        body := [("ok", .boolean true),
                 ("tycSolicitudId", .str tycSolicitudId),
                 ("preclienteId", .str s.preclienteId),
                 ("url", .str (baseUrl ++ "/tyc/" ++ token)),
                 ("token", .str token),
                 ("expiresAt", .str (toString expiresAt))],
        cache := setEntry cache token s,
        store := (applyWrite store (.insertRow row)).1,
        storeWrites := [.insertRow row],
        storeFailures := [] }
    else
      { status := 500,
        body := [("ok", .boolean false),
                 ("error", .str ("Error guardando la solicitud de TyC en la base de datos"))],
        cache := cache, store := store, storeWrites := [], storeFailures := [.insertRow row] }

/-- Result of the cron sweep `POST /api/tyc/cron/check-expired` (identical code
in both route files; it performs no database query). -/
structure CronResult where
  expiradas : Nat
  cache : Cache
  storeWrites : List StoreWrite
  webhooks : List WebhookCall
deriving DecidableEq, Repr

/-- One iteration of the sweep loop over a snapshot token. -/
def cronStep (cfg : Config) (now : Nat) (acc : Nat × Cache × List WebhookCall)
    (token : String) : Nat × Cache × List WebhookCall :=
  match getEntry acc.2.1 token with
  | none => acc
  | some s =>
    if (s.estado = .CREADA ∨ s.estado = .ABIERTA) ∧ s.expiresAt < now then
      let s2 := { s with estado := Estado.EXPIRADA }
      (acc.1 + 1, setEntry acc.2.1 token s2,
       acc.2.2 ++ (sendWebhook cfg s2 ("TYC_EXPIRADA")).toList)
    else acc

/-- The sweep loop over the snapshot of keys. -/
def cronGo (cfg : Config) (now : Nat) :
    List String → Nat × Cache × List WebhookCall → Nat × Cache × List WebhookCall
  | [], acc => acc
  | t :: rest, acc => cronGo cfg now rest (cronStep cfg now acc t)

/-- `POST /api/tyc/cron/check-expired`: snapshot the cache keys, expire every
cached CREADA/ABIERTA request whose deadline passed, webhook each, count them.
No `pool` query appears in this handler, so `storeWrites` is empty. -/
def checkExpired (cfg : Config) (now : Nat) (cache : Cache) : CronResult :=
  let r := cronGo cfg now (cache.map Prod.fst) (0, cache, [])
  { expiradas := r.1, cache := r.2.1, storeWrites := [], webhooks := r.2.2 }

end Tyc

namespace Tyc.Legacy

/-- Result of the legacy `GET /tyc/:token` (no store access at all). -/
structure GetResult where
  status : Nat
  page : Option Solicitud
  cache : Cache
  storeWrites : List StoreWrite
  webhooks : List WebhookCall
deriving DecidableEq, Repr

/-- Legacy `GET /tyc/:token` (src/tycRoutes.js): memory-only lookup; an expired,
non-accepted request is marked EXPIRADA in the cache and webhooked on EVERY such
request (no already-expired guard, no persistence); first non-expired read flips
CREADA to ABIERTA. -/
def getTyc (cfg : Config) (now : Nat) (cache : Cache) (token : String) : GetResult :=
  match getEntry cache token with
  | none =>
    { status := 404, page := none, cache := cache, storeWrites := [], webhooks := [] }
  | some s =>
    if s.expiresAt < now ∧ s.estado ≠ .ACEPTADA then
      let s2 := { s with estado := Estado.EXPIRADA }
      { status := 410, page := none,
        cache := setEntry cache token s2,
        storeWrites := [],
        webhooks := (sendWebhook cfg s2 ("TYC_EXPIRADA")).toList }
    else if s.estado = .CREADA then
      let s2 := { s with estado := Estado.ABIERTA, openedAt := some now }
      { status := 200, page := some s2,
        cache := setEntry cache token s2, storeWrites := [], webhooks := [] }
    else
      { status := 200, page := some s, cache := cache, storeWrites := [], webhooks := [] }

/-- Result of the legacy `POST /api/tyc/:token/aceptar`. -/
structure AcceptResult where
  status : Nat
  body : List (String × Jx)
  cache : Cache
  storeWrites : List StoreWrite
  webhooks : List WebhookCall
deriving DecidableEq, Repr

/-- Legacy `POST /api/tyc/:token/aceptar` (src/tycRoutes.js): memory-only; the
already-accepted answer repeats `ok` but carries no `acceptedAt`; a fresh
acceptance mutates only the cache (no database write) and webhooks
`TYC_ACEPTADA`; an expired request is webhooked `TYC_EXPIRADA` on every call. -/
def aceptar (cfg : Config) (now : Nat) (cache : Cache) (token : String)
    (ip : Option String) (ua : Option String) : AcceptResult :=
  match getEntry cache token with
  | none =>
    { status := 404,
      body := [("ok", .boolean false), ("error", .str ("Solicitud no encontrada"))],
      cache := cache, storeWrites := [], webhooks := [] }
  | some s =>
    if s.expiresAt < now ∧ s.estado ≠ .ACEPTADA then
      let s2 := { s with estado := Estado.EXPIRADA }
      { status := 410,
        body := [("ok", .boolean false), ("error", .str ("La URL ya expiró. Solicita una nueva."))],
        cache := setEntry cache token s2,
        storeWrites := [],
        webhooks := (sendWebhook cfg s2 ("TYC_EXPIRADA")).toList }
    else if s.estado = .ACEPTADA then
      { status := 200,
        body := [("ok", .boolean true),
                 ("mensaje", .str ("Esta solicitud ya había sido aceptada previamente.")),
                 ("preclienteId", .str s.preclienteId),
                 ("tycSolicitudId", .str s.tycSolicitudId)],
        cache := cache, storeWrites := [], webhooks := [] }
    else
      let s2 :=
        { s with
          estado := Estado.ACEPTADA, acceptedAt := some now,
          acceptedIp := ip, acceptedUserAgent := ua }
      { status := 200,
        body := [("ok", .boolean true),
                 ("mensaje", .str ("Aceptación registrada")),
                 ("preclienteId", .str s.preclienteId),
                 ("tycSolicitudId", .str s.tycSolicitudId)],
        cache := setEntry cache token s2,
        storeWrites := [],
        webhooks := (sendWebhook cfg s2 ("TYC_ACEPTADA")).toList }

end Tyc.Legacy

namespace Tyc.V2

/-- Rehydration of the in-memory object from a store row (the explicit field
mapping in the newer handlers; `acceptedUserAgent` is not persisted). -/
def rehydrate (row : DbRow) : Solicitud :=
  { tycSolicitudId := row.tyc_solicitud_id,
    preclienteId := row.precliente_id,
    canal := row.canal,
    token := row.token,
    estado := row.estado,
    createdAt := row.created_at,
    expiresAt := row.expires_at,
    webhookUrl := row.webhook_url,
    metadata := row.metadata,
    openedAt := row.opened_at,
    acceptedAt := row.accepted_at,
    acceptedIp := row.accepted_ip,
    acceptedUserAgent := none }

/-- Result of the newer `GET /tyc/:token`. -/
structure GetResult where
  status : Nat
  page : Option Solicitud
  cache : Cache
  store : Store
  storeWrites : List StoreWrite
  storeFailures : List StoreWrite
  webhooks : List WebhookCall
deriving DecidableEq, Repr

/-- Core of the newer `GET /tyc/:token` once the record is at hand: expiry is
applied, persisted and webhooked only when the state was not already EXPIRADA;
otherwise the open transition runs and `opened_at` is persisted best-effort
(the query runs on every non-expired request). -/
def getCore (cfg : Config) (now : Nat) (store : Store) (fx : List Bool) (qi : Nat)
    (cache1 : Cache) (token : String) (s : Solicitud) : GetResult :=
  if s.expiresAt < now ∧ s.estado ≠ .ACEPTADA then
    if s.estado = .EXPIRADA then
      { status := 410, page := none, cache := cache1, store := store,
        storeWrites := [], storeFailures := [], webhooks := [] }
    else
      let s2 := { s with estado := Estado.EXPIRADA }
      let cache2 := setEntry cache1 token s2
      let hooks := (sendWebhook cfg s2 ("TYC_EXPIRADA")).toList
      if qOk fx qi then
        { status := 410, page := none, cache := cache2,
          store := (applyWrite store (.setExpirada token)).1,
          storeWrites := [.setExpirada token], storeFailures := [], webhooks := hooks }
      else
        { status := 410, page := none, cache := cache2, store := store,
          storeWrites := [], storeFailures := [.setExpirada token], webhooks := hooks }
  else
    let su :=
      if s.estado = .CREADA then { s with estado := Estado.ABIERTA, openedAt := some now }
      else s
    let cache2 := if s.estado = .CREADA then setEntry cache1 token su else cache1
    if qOk fx qi then
      { status := 200, page := some su, cache := cache2,
        store := (applyWrite store (.setOpened token now)).1,
        storeWrites := [.setOpened token now], storeFailures := [], webhooks := [] }
    else
      { status := 200, page := some su, cache := cache2, store := store,
        storeWrites := [], storeFailures := [.setOpened token now], webhooks := [] }

/-- Newer `GET /tyc/:token` (the copy in src/internalAuth.js): cache first, on a
miss SELECT from `tyc_solicitudes` (500 if the query fails, 404 if no row),
rehydrate into the cache, then run the state machine. -/
def getTyc (cfg : Config) (now : Nat) (cache : Cache) (store : Store) (fx : List Bool)
    (token : String) : GetResult :=
  match getEntry cache token with
  | some s => getCore cfg now store fx 0 cache token s
  | none =>
    if qOk fx 0 then
      match getEntry store token with
      | none =>
        { status := 404, page := none, cache := cache, store := store,
          storeWrites := [], storeFailures := [], webhooks := [] }
      | some row =>
        let s := rehydrate row
        getCore cfg now store fx 1 (setEntry cache token s) token s
    else
      { status := 500, page := none, cache := cache, store := store,
        storeWrites := [], storeFailures := [], webhooks := [] }

/-- Result of the newer `POST /api/tyc/:token/aceptar`. -/
structure AcceptResult where
  status : Nat
  body : List (String × Jx)
  cache : Cache
  store : Store
  storeWrites : List StoreWrite
  storeFailures : List StoreWrite
  webhooks : List WebhookCall
deriving DecidableEq, Repr

/-- Core of the newer accept handler once the record is at hand: expiry as in
the read path (persisted best-effort, webhooked once); an ACEPTADA state or a
set `acceptedAt` answers `ok` with the original `acceptedAt` and no effect; the
fresh path issues the conditional UPDATE (a thrown query aborts to a 500 before
any cache change), then updates the cache and webhooks `TYC_ACEPTADA`. -/
def acceptCore (cfg : Config) (now : Nat) (store : Store) (fx : List Bool) (qi : Nat)
    (cache1 : Cache) (token : String) (ip : Option String) (ua : Option String)
    (s : Solicitud) : AcceptResult :=
  if s.expiresAt < now ∧ s.estado ≠ .ACEPTADA then
    if s.estado = .EXPIRADA then
      { status := 410,
        body := [("ok", .boolean false), ("error", .str ("La URL ya expiró. Solicita una nueva."))],
        cache := cache1, store := store,
        storeWrites := [], storeFailures := [], webhooks := [] }
    else
      let s2 := { s with estado := Estado.EXPIRADA }
      let cache2 := setEntry cache1 token s2
      let hooks := (sendWebhook cfg s2 ("TYC_EXPIRADA")).toList
      if qOk fx qi then
        { status := 410,
          body := [("ok", .boolean false), ("error", .str ("La URL ya expiró. Solicita una nueva."))],
          cache := cache2, store := (applyWrite store (.setExpirada token)).1,
          storeWrites := [.setExpirada token], storeFailures := [], webhooks := hooks }
      else
        { status := 410,
          body := [("ok", .boolean false), ("error", .str ("La URL ya expiró. Solicita una nueva."))],
          cache := cache2, store := store,
          storeWrites := [], storeFailures := [.setExpirada token], webhooks := hooks }
  else if s.estado = .ACEPTADA ∨ s.acceptedAt.isSome then
    { status := 200,
      body := [("ok", .boolean true),
               ("mensaje", .str ("Esta solicitud ya había sido aceptada previamente.")),
               ("preclienteId", .str s.preclienteId),
               ("tycSolicitudId", .str s.tycSolicitudId),
               ("acceptedAt", jxOptTime s.acceptedAt)],
      cache := cache1, store := store,
      storeWrites := [], storeFailures := [], webhooks := [] }
  else
    if qOk fx qi then
      let s2 :=
        { s with
          estado := Estado.ACEPTADA, acceptedAt := some now,
          acceptedIp := ip, acceptedUserAgent := ua }
      { status := 200,
        body := [("ok", .boolean true),
                 ("mensaje", .str ("Aceptación registrada")),
                 ("preclienteId", .str s.preclienteId),
                 ("tycSolicitudId", .str s.tycSolicitudId),
                 ("acceptedAt", .str (toString now)),
                 ("acceptedIp", jxOptStr ip)],
        cache := setEntry cache1 token s2,
        store := (applyWrite store (.setAccepted token ip now)).1,
        storeWrites := [.setAccepted token ip now], storeFailures := [],
        webhooks := (sendWebhook cfg s2 ("TYC_ACEPTADA")).toList }
    else
      { status := 500,
        body := [("ok", .boolean false), ("error", .str ("Error interno"))],
        cache := cache1, store := store,
        storeWrites := [], storeFailures := [.setAccepted token ip now], webhooks := [] }

/-- Newer `POST /api/tyc/:token/aceptar` (the copy in src/internalAuth.js):
cache first, on a miss SELECT and rehydrate (500 on query failure, 404 when the
token is in neither layer), then the accept state machine. -/
def aceptar (cfg : Config) (now : Nat) (cache : Cache) (store : Store) (fx : List Bool)
    (token : String) (ip : Option String) (ua : Option String) : AcceptResult :=
  match getEntry cache token with
  | some s => acceptCore cfg now store fx 0 cache token ip ua s
  | none =>
    if qOk fx 0 then
      match getEntry store token with
      | none =>
        { status := 404,
          body := [("ok", .boolean false), ("error", .str ("Solicitud no encontrada"))],
          cache := cache, store := store,
          storeWrites := [], storeFailures := [], webhooks := [] }
      | some row =>
        let s := rehydrate row
        acceptCore cfg now store fx 1 (setEntry cache token s) token ip ua s
    else
      { status := 500,
        body := [("ok", .boolean false), ("error", .str ("Error interno"))],
        cache := cache, store := store,
        storeWrites := [], storeFailures := [], webhooks := [] }

end Tyc.V2

namespace Tyc

/-- Sweep eligibility: CREADA or ABIERTA and past the deadline. -/
def elig (now : Nat) (s : Solicitud) : Bool :=
  decide ((s.estado = .CREADA ∨ s.estado = .ABIERTA) ∧ s.expiresAt < now)

/-- What one sweep pass does to one cache entry. -/
def expStep (now : Nat) (p : String × Solicitud) : String × Solicitud :=
  (p.1, if elig now p.2 then { p.2 with estado := Estado.EXPIRADA } else p.2)

/-- The webhook one sweep pass emits for one cache entry. -/
def hookFn (cfg : Config) (now : Nat) (p : String × Solicitud) : Option WebhookCall :=
  if elig now p.2 then sendWebhook cfg { p.2 with estado := Estado.EXPIRADA } ("TYC_EXPIRADA")
  else none

theorem getEntry_setEntry_self (m : List (String × α)) (k : String) (v : α) :
    getEntry (setEntry m k v) k = some v := by
  induction m with
  | nil => simp [setEntry, getEntry]
  | cons p rest ih =>
    by_cases h : p.1 = k
    · simp [setEntry, getEntry, h]
    · simp [setEntry, getEntry, h, ih]

theorem getEntry_setEntry_ne (m : List (String × α)) (k k2 : String) (v : α)
    (h : k ≠ k2) : getEntry (setEntry m k v) k2 = getEntry m k2 := by
  induction m with
  | nil => simp [setEntry, getEntry, h]
  | cons p rest ih =>
    by_cases hp : p.1 = k
    · simp [setEntry, getEntry, hp, h]
    · simp [setEntry, getEntry, hp, ih]

theorem getEntry_append_head (pre : List (String × α)) (rest : List (String × α))
    (t : String) (r : α) (h : t ∉ pre.map Prod.fst) :
    getEntry (pre ++ (t, r) :: rest) t = some r := by
  induction pre with
  | nil => simp [getEntry]
  | cons p pre2 ih =>
    have h1 : p.1 ≠ t := by
      intro he
      exact h (by simp [he])
    have h2 : t ∉ pre2.map Prod.fst := by
      intro he
      exact h (by simp [he])
    simp [getEntry, h1, ih h2]

theorem setEntry_append_head (pre : List (String × α)) (rest : List (String × α))
    (t : String) (r v : α) (h : t ∉ pre.map Prod.fst) :
    setEntry (pre ++ (t, r) :: rest) t v = pre ++ (t, v) :: rest := by
  induction pre with
  | nil => simp [setEntry]
  | cons p pre2 ih =>
    have h1 : p.1 ≠ t := by
      intro he
      exact h (by simp [he])
    have h2 : t ∉ pre2.map Prod.fst := by
      intro he
      exact h (by simp [he])
    simp [setEntry, h1, ih h2]

/-- Characterization of the sweep loop: over a snapshot of distinct keys it
expires exactly the eligible entries, in place, emitting one webhook per
eligible entry that has a target, and counts the eligible entries. -/
theorem cronGo_spec (cfg : Config) (now : Nat) :
    ∀ (post pre : Cache) (cnt : Nat) (hooks : List WebhookCall),
    ((pre ++ post).map Prod.fst).Nodup →
    cronGo cfg now (post.map Prod.fst) (cnt, pre ++ post, hooks) =
      (cnt + post.countP (fun p => elig now p.2),
       pre ++ post.map (expStep now),
       hooks ++ post.filterMap (hookFn cfg now)) := by
  intro post
  induction post with
  | nil => intro pre cnt hooks _; simp [cronGo]
  | cons q rest ih =>
    intro pre cnt hooks hnd
    obtain ⟨t, r⟩ := q
    have hpre : t ∉ pre.map Prod.fst := by
      intro hmem
      have hd := (List.nodup_append.mp (by simpa using hnd)).2.2
      exact hd hmem (by simp)
    have hget : getEntry (pre ++ (t, r) :: rest) t = some r :=
      getEntry_append_head pre rest t r hpre
    simp only [List.map_cons, cronGo, cronStep, hget]
    by_cases he : (r.estado = .CREADA ∨ r.estado = .ABIERTA) ∧ r.expiresAt < now
    · have heb : elig now r = true := by simp [elig, he]
      rw [if_pos he]
      rw [setEntry_append_head pre rest t r _ hpre]
      have hnd2 : ((pre ++ [(t, { r with estado := Estado.EXPIRADA })] ++ rest).map Prod.fst).Nodup := by
        simpa using hnd
      have := ih (pre ++ [(t, { r with estado := Estado.EXPIRADA })]) (cnt + 1)
        (hooks ++ (sendWebhook cfg { r with estado := Estado.EXPIRADA } ("TYC_EXPIRADA")).toList) hnd2
      simp only [List.append_assoc, List.cons_append, List.nil_append] at this
      rw [this]
      simp only [Prod.mk.injEq]
      refine ⟨?_, ?_, ?_⟩
      · simp only [List.countP_cons, heb, if_true]
        omega
      · simp [expStep, heb]
      · simp only [List.filterMap_cons, hookFn, heb, if_true]
        cases hw : sendWebhook cfg { r with estado := Estado.EXPIRADA } ("TYC_EXPIRADA") with
        | none => simp
        | some c => simp
    · have heb : elig now r = false := by
        simp only [elig, decide_eq_false_iff_not]
        exact he
      rw [if_neg he]
      have hnd2 : ((pre ++ [(t, r)] ++ rest).map Prod.fst).Nodup := by
        simpa using hnd
      have := ih (pre ++ [(t, r)]) cnt hooks hnd2
      simp only [List.append_assoc, List.cons_append, List.nil_append] at this
      rw [this]
      simp only [Prod.mk.injEq]
      refine ⟨?_, ?_, ?_⟩
      · simp [List.countP_cons, heb]
      · simp [expStep, heb]
      · simp [List.filterMap_cons, hookFn, heb]

/-- Characterization of the whole sweep handler on a cache with distinct keys. -/
theorem checkExpired_spec (cfg : Config) (now : Nat) (cache : Cache)
    (hnd : (cache.map Prod.fst).Nodup) :
    checkExpired cfg now cache =
      { expiradas := cache.countP (fun p => elig now p.2),
        cache := cache.map (expStep now),
        storeWrites := [],
        webhooks := cache.filterMap (hookFn cfg now) } := by
  have := cronGo_spec cfg now cache [] 0 [] (by simpa using hnd)
  simp only [List.nil_append] at this
  simp [checkExpired, this]

theorem getEntry_map_expStep (now : Nat) (m : Cache) (k : String) :
    getEntry (m.map (expStep now)) k =
      (getEntry m k).map
        (fun r => if elig now r then { r with estado := Estado.EXPIRADA } else r) := by
  induction m with
  | nil => simp [getEntry]
  | cons p rest ih =>
    by_cases h : p.1 = k
    · simp [getEntry, expStep, h]
    · simp [getEntry, expStep, h, ih]

/-- Pointwise effect of `updWhere` on lookups: keys are preserved and the first
matching row is transformed exactly when the predicate holds. -/
theorem getEntry_updWhere (st : Store) (p : DbRow → Bool) (f : DbRow → DbRow) (k : String) :
    getEntry (updWhere st p f).1 k =
      (getEntry st k).map (fun r => if p r then f r else r) := by
  induction st with
  | nil => simp [updWhere, getEntry]
  | cons q rest ih =>
    by_cases hk : q.1 = k
    · by_cases hp : p q.2 <;> simp [updWhere, getEntry, hk, hp]
    · by_cases hp : p q.2 <;> simp [updWhere, getEntry, hk, hp, ih]

/-! Concrete fixtures used by witnesses and counterexamples. -/

/-- Environment with no secret configured. -/
def cfg0 : Config := { webhookSecret := none, tycBaseUrl := none, port := none }

/-- A freshly created request: CREADA, deadline at 100, with a webhook target. -/
def baseSol : Solicitud :=
  { tycSolicitudId := "TYC-1", preclienteId := "PRE-1", canal := "WHATSAPP",
    token := "tok", estado := Estado.CREADA, createdAt := 0, expiresAt := 100,
    webhookUrl := some ("https://n8n.example/webhook"), metadata := [],
    openedAt := none, acceptedAt := none, acceptedIp := none, acceptedUserAgent := none }

/-- The same request after acceptance at time 42. -/
def sAcc : Solicitud :=
  { baseSol with
    estado := Estado.ACEPTADA, openedAt := some 10, acceptedAt := some 42,
    acceptedIp := some ("1.2.3.4") }

/-- A variant of `baseSol` carrying caller metadata. -/
def sMeta : Solicitud := { baseSol with metadata := [(("plan" : String), ("premium" : String))] }

/-- Cache for the sweep scenario: two stale CREADA requests and one ACEPTADA. -/
def cronCache0 : Cache :=
  [(("tokA" : String), baseSol),
   (("tokB" : String), { baseSol with token := "tokB" }),
   (("tokC" : String), { sAcc with token := "tokC" })]

/-- A store row for `baseSol` as the creation INSERT would persist it. -/
def row0 : DbRow :=
  { tyc_solicitud_id := "TYC-1", precliente_id := "PRE-1", token := "tok",
    token_hash := Sha256.sha256Hex ("tok"), canal := "WHATSAPP",
    webhook_url := some ("https://n8n.example/webhook"), metadata := [],
    estado := Estado.CREADA, created_at := 0, expires_at := 100,
    opened_at := none, accepted_at := none, accepted_ip := none }

/-- Store holding only `row0` under its token. -/
def store0 : Store := [(("tok" : String), row0)]

/-- C7, counterexample: the claim says caller metadata is echoed back verbatim
in every webhook notification, but `sendWebhook`'s payload has no metadata
field at all — two records that differ only in (non-empty) metadata produce
bitwise-identical webhook calls. -/
theorem C7_metadata_not_echoed_cex :
    sMeta.metadata ≠ baseSol.metadata ∧
    sendWebhook cfg0 sMeta ("TYC_ACEPTADA") = sendWebhook cfg0 baseSol ("TYC_ACEPTADA") := by
  exact ⟨by decide, rfl⟩

/-- C7, amended: metadata is stored with the record but never included in (nor
echoed by) webhook notifications — every dispatch is invariant under arbitrary
changes of the metadata payload. -/
theorem C7_webhook_metadata_independent (cfg : Config) (s : Solicitud) (e : String)
    (m : List (String × String)) :
    sendWebhook cfg { s with metadata := m } e = sendWebhook cfg s e := by
  cases s
  rfl

/-- C6: a dispatched webhook has no call when the record has a blank target;
otherwise its payload carries the event name, subjectId, requestId, current
state, createdAt, expiresAt, openedAt-or-null, acceptedAt-or-null, and its
signature is the HMAC-SHA256 of the exact serialized payload under the
process secret, which falls back to "default_secret" when unset. -/
theorem C6_webhook_contract (cfg : Config) (s : Solicitud) (e : String) :
    (isBlank s.webhookUrl = true → sendWebhook cfg s e = none) ∧
    (∀ u, s.webhookUrl = some u → isBlank s.webhookUrl = false →
      sendWebhook cfg s e = some
        { url := u,
          evento := e,
          payload :=
            { evento := e, preclienteId := s.preclienteId,
              tycSolicitudId := s.tycSolicitudId, estado := s.estado,
              createdAt := s.createdAt, expiresAt := s.expiresAt,
              openedAt := s.openedAt, acceptedAt := s.acceptedAt },
          body := serializePayload (mkPayload s e),
          signature :=
            Sha256.hmacSha256Hex (strOr cfg.webhookSecret ("default_secret"))
              (serializePayload (mkPayload s e)) }) ∧
    (cfg.webhookSecret = none → strOr cfg.webhookSecret ("default_secret") = "default_secret") := by
  refine ⟨?_, ?_, ?_⟩
  · intro h
    simp [sendWebhook, h]
  · intro u hu hb
    rw [hu] at hb
    simp [sendWebhook, hu, hb, mkPayload]
  · intro h
    simp [strOr, h]

/-- C6, witness at a concrete record with a configured target and no secret. -/
theorem C6_webhook_contract_witness :
    isBlank baseSol.webhookUrl = false ∧
    sendWebhook cfg0 baseSol ("TYC_ACEPTADA") = some
      { url := "https://n8n.example/webhook",
        evento := "TYC_ACEPTADA",
        payload :=
          { evento := "TYC_ACEPTADA", preclienteId := baseSol.preclienteId,
            tycSolicitudId := baseSol.tycSolicitudId, estado := baseSol.estado,
            createdAt := baseSol.createdAt, expiresAt := baseSol.expiresAt,
            openedAt := baseSol.openedAt, acceptedAt := baseSol.acceptedAt },
        body := serializePayload (mkPayload baseSol ("TYC_ACEPTADA")),
        signature :=
          Sha256.hmacSha256Hex (strOr cfg0.webhookSecret ("default_secret"))
            (serializePayload (mkPayload baseSol ("TYC_ACEPTADA"))) } :=
  ⟨by decide,
   (C6_webhook_contract cfg0 baseSol ("TYC_ACEPTADA")).2.1
     ("https://n8n.example/webhook") rfl (by decide)⟩

/-- C5, counterexample: the sweep transitions records (here the spec's own
scenario, two stale CREADA and one ACEPTADA, giving `expiradas = 2`) but its
handler contains no database query at all, so no transition is persisted to
the durable store — refuting the "persists each such transition" part. -/
theorem C5_sweep_not_persisted_cex :
    (checkExpired cfg0 1000 cronCache0).expiradas = 2 ∧
    (checkExpired cfg0 1000 cronCache0).storeWrites = [] := by
  exact ⟨by decide, rfl⟩

/-- C5, amended: the sweep transitions exactly the cached CREADA/ABIERTA
records whose deadline passed to EXPIRADA, dispatches one "expired" webhook
per such record with a target, leaves ACEPTADA and EXPIRADA records unchanged
and returns the count of transitions — but performs no durable-store write. -/
theorem C5_sweep_behavior (cfg : Config) (now : Nat) (cache : Cache)
    (hnd : (cache.map Prod.fst).Nodup) :
    checkExpired cfg now cache =
      { expiradas := cache.countP (fun p => elig now p.2),
        cache := cache.map (expStep now),
        storeWrites := [],
        webhooks := cache.filterMap (hookFn cfg now) } ∧
    (∀ p : String × Solicitud, p.2.estado = .ACEPTADA ∨ p.2.estado = .EXPIRADA →
      expStep now p = p ∧ hookFn cfg now p = none ∧ elig now p.2 = false) := by
  refine ⟨checkExpired_spec cfg now cache hnd, ?_⟩
  intro p hp
  have he : elig now p.2 = false := by
    rcases hp with h | h <;> simp [elig, h]
  exact ⟨by simp [expStep, he], by simp [hookFn, he], he⟩

/-- C5, witness on the spec's sweep scenario: distinct keys, `expiradas = 2`,
the ACEPTADA entry untouched. -/
theorem C5_sweep_behavior_witness :
    (cronCache0.map Prod.fst).Nodup ∧
    cronCache0.countP (fun p => elig 1000 p.2) = 2 ∧
    (checkExpired cfg0 1000 cronCache0 =
      { expiradas := cronCache0.countP (fun p => elig 1000 p.2),
        cache := cronCache0.map (expStep 1000),
        storeWrites := [],
        webhooks := cronCache0.filterMap (hookFn cfg0 1000) } ∧
     (∀ p : String × Solicitud, p.2.estado = .ACEPTADA ∨ p.2.estado = .EXPIRADA →
       expStep 1000 p = p ∧ hookFn cfg0 1000 p = none ∧ elig 1000 p.2 = false)) :=
  ⟨by decide, by decide, C5_sweep_behavior cfg0 1000 cronCache0 (by decide)⟩

/-- First legacy read of a stale CREADA request at time 1000. -/
def c1run1 : Legacy.GetResult :=
  Legacy.getTyc cfg0 1000 [(("tok" : String), baseSol)] ("tok")

/-- Second legacy read of the same token, on the cache the first read left. -/
def c1run2 : Legacy.GetResult := Legacy.getTyc cfg0 1000 c1run1.cache ("tok")

/-- C1, counterexample: in the legacy read handler the expiry transition is
never persisted (`storeWrites = []`) and a SECOND read of the already-EXPIRADA
record dispatches a second "expired" webhook, refuting "exactly once ... any
later attempt fails without a second dispatch". -/
theorem C1_legacy_second_dispatch_cex :
    c1run1.status = 410 ∧ c1run1.webhooks.length = 1 ∧ c1run1.storeWrites = [] ∧
    c1run2.status = 410 ∧ c1run2.webhooks.length = 1 := by
  decide

/-- C1, amended (holds for the rehydrating handlers in src/internalAuth.js):
a read or accept of a CREADA/ABIERTA record past its deadline marks it
EXPIRADA in the cache, issues exactly one store update and one "expired"
dispatch, and fails with 410; on a record already EXPIRADA both operations
fail again with no further dispatch and no further write; the cache left by
the first attempt holds the EXPIRADA record, so any later attempt is of the
second kind. -/
theorem C1_expiry_once (cfg : Config) (now : Nat) (cache : Cache) (store : Store)
    (tok : String) (ip ua : Option String) (s : Solicitud)
    (hc : getEntry cache tok = some s) (hexp : s.expiresAt < now) :
    (s.estado = .CREADA ∨ s.estado = .ABIERTA →
      V2.getTyc cfg now cache store [] tok =
        { status := 410, page := none,
          cache := setEntry cache tok { s with estado := Estado.EXPIRADA },
          store := (applyWrite store (.setExpirada tok)).1,
          storeWrites := [.setExpirada tok], storeFailures := [],
          webhooks := (sendWebhook cfg { s with estado := Estado.EXPIRADA } ("TYC_EXPIRADA")).toList } ∧
      V2.aceptar cfg now cache store [] tok ip ua =
        { status := 410,
          body := [("ok", .boolean false), ("error", .str ("La URL ya expiró. Solicita una nueva."))],
          cache := setEntry cache tok { s with estado := Estado.EXPIRADA },
          store := (applyWrite store (.setExpirada tok)).1,
          storeWrites := [.setExpirada tok], storeFailures := [],
          webhooks := (sendWebhook cfg { s with estado := Estado.EXPIRADA } ("TYC_EXPIRADA")).toList }) ∧
    (s.estado = .EXPIRADA →
      ∀ (store2 : Store) (fx : List Bool),
        V2.getTyc cfg now cache store2 fx tok =
          { status := 410, page := none, cache := cache, store := store2,
            storeWrites := [], storeFailures := [], webhooks := [] } ∧
        V2.aceptar cfg now cache store2 fx tok ip ua =
          { status := 410,
            body := [("ok", .boolean false), ("error", .str ("La URL ya expiró. Solicita una nueva."))],
            cache := cache, store := store2,
            storeWrites := [], storeFailures := [], webhooks := [] }) ∧
    (isBlank s.webhookUrl = false →
      ((sendWebhook cfg { s with estado := Estado.EXPIRADA } ("TYC_EXPIRADA")).toList).length = 1) ∧
    getEntry (setEntry cache tok { s with estado := Estado.EXPIRADA }) tok =
      some { s with estado := Estado.EXPIRADA } := by
  refine ⟨?_, ?_, ?_, getEntry_setEntry_self cache tok _⟩
  · intro h
    rcases h with h | h <;>
      simp [V2.getTyc, V2.getCore, V2.aceptar, V2.acceptCore, hc, h, hexp, qOk]
  · intro h store2 fx
    constructor <;> simp [V2.getTyc, V2.getCore, V2.aceptar, V2.acceptCore, hc, h, hexp]
  · intro hb
    simp [sendWebhook, hb]

/-- C1, witness: the CREADA clause of the amended theorem at a concrete stale
record. -/
theorem C1_expiry_once_witness :
    getEntry [(("tok" : String), baseSol)] ("tok") = some baseSol ∧
    baseSol.expiresAt < 1000 ∧
    V2.getTyc cfg0 1000 [(("tok" : String), baseSol)] store0 [] ("tok") =
      { status := 410, page := none,
        cache := setEntry [(("tok" : String), baseSol)] ("tok")
          { baseSol with estado := Estado.EXPIRADA },
        store := (applyWrite store0 (.setExpirada ("tok"))).1,
        storeWrites := [.setExpirada ("tok")], storeFailures := [],
        webhooks :=
          (sendWebhook cfg0 { baseSol with estado := Estado.EXPIRADA } ("TYC_EXPIRADA")).toList } :=
  ⟨by decide, by decide,
   (((C1_expiry_once cfg0 1000 [(("tok" : String), baseSol)] store0 ("tok") none none baseSol
      (by decide) (by decide)).1) (Or.inl (by decide))).1⟩

/-- Legacy second accept call on an already accepted record. -/
def c2legacy : Legacy.AcceptResult :=
  Legacy.aceptar cfg0 50 [(("tok" : String), sAcc)] ("tok") none none

/-- C2, counterexample: the legacy accept handler answers a second accept with
success and no duplicate webhook, but its response body has NO `acceptedAt`
field, so it does not carry the original `acceptedAt` value (`some 42`). -/
theorem C2_legacy_no_acceptedAt_cex :
    c2legacy.status = 200 ∧
    getEntry c2legacy.body ("ok") = some (.boolean true) ∧
    c2legacy.webhooks = [] ∧
    sAcc.acceptedAt = some 42 ∧
    getEntry c2legacy.body ("acceptedAt") = none := by
  decide

/-- C2, amended: a second accept on an already-accepted record returns success
with no duplicate "accepted" dispatch in both handler generations; the
rehydrating handler's response carries the original `acceptedAt`, while the
legacy handler's response omits the field. -/
theorem C2_second_accept (cfg : Config) (now : Nat) (cache : Cache) (store : Store)
    (fx : List Bool) (tok : String) (ip ua : Option String) (s : Solicitud)
    (hc : getEntry cache tok = some s) (hacc : s.estado = .ACEPTADA) :
    V2.aceptar cfg now cache store fx tok ip ua =
      { status := 200,
        body := [("ok", .boolean true),
                 ("mensaje", .str ("Esta solicitud ya había sido aceptada previamente.")),
                 ("preclienteId", .str s.preclienteId),
                 ("tycSolicitudId", .str s.tycSolicitudId),
                 ("acceptedAt", jxOptTime s.acceptedAt)],
        cache := cache, store := store, storeWrites := [], storeFailures := [],
        webhooks := [] } ∧
    Legacy.aceptar cfg now cache tok ip ua =
      { status := 200,
        body := [("ok", .boolean true),
                 ("mensaje", .str ("Esta solicitud ya había sido aceptada previamente.")),
                 ("preclienteId", .str s.preclienteId),
                 ("tycSolicitudId", .str s.tycSolicitudId)],
        cache := cache, storeWrites := [], webhooks := [] } := by
  constructor <;> simp [V2.aceptar, V2.acceptCore, Legacy.aceptar, hc, hacc]

/-- C2, witness: second accept on a concrete accepted record (even past its
deadline) answers with the original `acceptedAt = 42` and no webhook. -/
theorem C2_second_accept_witness :
    getEntry [(("tok" : String), sAcc)] ("tok") = some sAcc ∧
    sAcc.estado = Estado.ACEPTADA ∧
    V2.aceptar cfg0 500 [(("tok" : String), sAcc)] store0 [] ("tok") none none =
      { status := 200,
        body := [("ok", .boolean true),
                 ("mensaje", .str ("Esta solicitud ya había sido aceptada previamente.")),
                 ("preclienteId", .str sAcc.preclienteId),
                 ("tycSolicitudId", .str sAcc.tycSolicitudId),
                 ("acceptedAt", jxOptTime sAcc.acceptedAt)],
        cache := [(("tok" : String), sAcc)], store := store0,
        storeWrites := [], storeFailures := [], webhooks := [] } :=
  ⟨by decide, by decide,
   (C2_second_accept cfg0 500 [(("tok" : String), sAcc)] store0 [] ("tok") none none sAcc
     (by decide) (by decide)).1⟩

/-- An opened, not yet accepted request. -/
def sOpen : Solicitud := { baseSol with estado := Estado.ABIERTA, openedAt := some 10 }

/-- Legacy fresh accept of `sOpen` at time 50 (before the deadline). -/
def c3legacy : Legacy.AcceptResult :=
  Legacy.aceptar cfg0 50 [(("tok" : String), sOpen)] ("tok") (some ("1.2.3.4")) (some ("UA"))

/-- C3, counterexample: the legacy accept handler transitions the record to
ACEPTADA in the cache but performs no durable-store write at all, refuting
"persists ... to the durable store using a conditional write". -/
theorem C3_legacy_accept_unpersisted_cex :
    c3legacy.status = 200 ∧
    getEntry c3legacy.cache ("tok") =
      some { sOpen with
             estado := Estado.ACEPTADA, acceptedAt := some 50,
             acceptedIp := some ("1.2.3.4"), acceptedUserAgent := some ("UA") } ∧
    c3legacy.storeWrites = [] := by
  decide

/-- C3, amended (holds for the rehydrating accept handler): first acceptance
issues the conditional `setAccepted` store update and only then updates the
cache — when the store write fails the handler answers 500 with the cache
untouched; the update mutates no row whose `accepted_at` is already set; and
on an already-accepted record the handler performs no store mutation. -/
theorem C3_accept_persistence (cfg : Config) (now : Nat) (cache : Cache) (store : Store)
    (tok : String) (ip ua : Option String) (s : Solicitud)
    (hc : getEntry cache tok = some s) :
    (s.estado ≠ .ACEPTADA → s.acceptedAt = none → ¬ s.expiresAt < now →
      V2.aceptar cfg now cache store [] tok ip ua =
        { status := 200,
          body := [("ok", .boolean true),
                   ("mensaje", .str ("Aceptación registrada")),
                   ("preclienteId", .str s.preclienteId),
                   ("tycSolicitudId", .str s.tycSolicitudId),
                   ("acceptedAt", .str (toString now)),
                   ("acceptedIp", jxOptStr ip)],
          cache := setEntry cache tok
            { s with
              estado := Estado.ACEPTADA, acceptedAt := some now,
              acceptedIp := ip, acceptedUserAgent := ua },
          store := (applyWrite store (.setAccepted tok ip now)).1,
          storeWrites := [.setAccepted tok ip now], storeFailures := [],
          webhooks :=
            (sendWebhook cfg
              { s with
                estado := Estado.ACEPTADA, acceptedAt := some now,
                acceptedIp := ip, acceptedUserAgent := ua } ("TYC_ACEPTADA")).toList } ∧
      V2.aceptar cfg now cache store [false] tok ip ua =
        { status := 500,
          body := [("ok", .boolean false), ("error", .str ("Error interno"))],
          cache := cache, store := store,
          storeWrites := [], storeFailures := [.setAccepted tok ip now],
          webhooks := [] }) ∧
    (s.estado = .ACEPTADA → ∀ fx : List Bool,
      (V2.aceptar cfg now cache store fx tok ip ua).storeWrites = [] ∧
      (V2.aceptar cfg now cache store fx tok ip ua).store = store) ∧
    (∀ st2 : Store, (∀ p ∈ st2, p.2.accepted_at.isSome = true) →
      applyWrite st2 (.setAccepted tok ip now) = (st2, 0)) := by
  refine ⟨?_, ?_, ?_⟩
  · intro h1 h2 h3
    constructor <;> simp [V2.aceptar, V2.acceptCore, hc, h1, h2, h3, qOk]
  · intro hacc fx
    constructor <;> simp [V2.aceptar, V2.acceptCore, hc, hacc]
  · intro st2
    induction st2 with
    | nil => intro _; rfl
    | cons q rest ih =>
      intro hall
      have hq : q.2.accepted_at.isSome = true := hall q (by simp)
      have hrest : ∀ p ∈ rest, p.2.accepted_at.isSome = true := by
        intro p hp
        exact hall p (by simp [hp])
      have hnn : q.2.accepted_at.isNone = false := by
        cases hopt : q.2.accepted_at with
        | none => rw [hopt] at hq; simp at hq
        | some v => simp
      have ih2 := ih hrest
      simp only [applyWrite] at ih2 ⊢
      simp [updWhere, hnn, ih2]

/-- C3, witness: fresh accept of a concrete opened record issues the
conditional store write and the cache update. -/
theorem C3_accept_persistence_witness :
    getEntry [(("tok" : String), sOpen)] ("tok") = some sOpen ∧
    sOpen.estado ≠ Estado.ACEPTADA ∧ sOpen.acceptedAt = none ∧ ¬ sOpen.expiresAt < 50 ∧
    V2.aceptar cfg0 50 [(("tok" : String), sOpen)] store0 [] ("tok")
        (some ("1.2.3.4")) (some ("UA")) =
      { status := 200,
        body := [("ok", .boolean true),
                 ("mensaje", .str ("Aceptación registrada")),
                 ("preclienteId", .str sOpen.preclienteId),
                 ("tycSolicitudId", .str sOpen.tycSolicitudId),
                 ("acceptedAt", .str (toString 50)),
                 ("acceptedIp", jxOptStr (some ("1.2.3.4")))],
        cache := setEntry [(("tok" : String), sOpen)] ("tok")
          { sOpen with
            estado := Estado.ACEPTADA, acceptedAt := some 50,
            acceptedIp := some ("1.2.3.4"), acceptedUserAgent := some ("UA") },
        store := (applyWrite store0 (.setAccepted ("tok") (some ("1.2.3.4")) 50)).1,
        storeWrites := [.setAccepted ("tok") (some ("1.2.3.4")) 50], storeFailures := [],
        webhooks :=
          (sendWebhook cfg0
            { sOpen with
              estado := Estado.ACEPTADA, acceptedAt := some 50,
              acceptedIp := some ("1.2.3.4"), acceptedUserAgent := some ("UA") }
            ("TYC_ACEPTADA")).toList } :=
  ⟨by decide, by decide, by decide, by decide,
   ((C3_accept_persistence cfg0 50 [(("tok" : String), sOpen)] store0 ("tok")
      (some ("1.2.3.4")) (some ("UA")) sOpen (by decide)).1
     (by decide) (by decide) (by decide)).1⟩

theorem getCore_status_ne_404 (cfg : Config) (now : Nat) (store : Store) (fx : List Bool)
    (qi : Nat) (cache1 : Cache) (tok : String) (s : Solicitud) :
    (V2.getCore cfg now store fx qi cache1 tok s).status ≠ 404 := by
  unfold V2.getCore
  split_ifs <;> simp

theorem acceptCore_status_ne_404 (cfg : Config) (now : Nat) (store : Store) (fx : List Bool)
    (qi : Nat) (cache1 : Cache) (tok : String) (ip ua : Option String) (s : Solicitud) :
    (V2.acceptCore cfg now store fx qi cache1 tok ip ua s).status ≠ 404 := by
  unfold V2.acceptCore
  split_ifs <;> simp

theorem getCore_cache_keeps (cfg : Config) (now : Nat) (store : Store) (fx : List Bool)
    (qi : Nat) (cache1 : Cache) (tok : String) (s : Solicitud)
    (h : (getEntry cache1 tok).isSome = true) :
    (getEntry (V2.getCore cfg now store fx qi cache1 tok s).cache tok).isSome = true := by
  unfold V2.getCore
  split_ifs <;> simp [h, getEntry_setEntry_self]

theorem acceptCore_cache_keeps (cfg : Config) (now : Nat) (store : Store) (fx : List Bool)
    (qi : Nat) (cache1 : Cache) (tok : String) (ip ua : Option String) (s : Solicitud)
    (h : (getEntry cache1 tok).isSome = true) :
    (getEntry (V2.acceptCore cfg now store fx qi cache1 tok ip ua s).cache tok).isSome = true := by
  unfold V2.acceptCore
  split_ifs <;> simp [h, getEntry_setEntry_self]

/-- C4, counterexample: the legacy read and accept handlers answer 404 from an
empty cache without ever consulting the durable store, even though the token
is present there — refuting "not found only when the token is unknown in both
the cache and the store". -/
theorem C4_legacy_cache_only_cex :
    (Legacy.getTyc cfg0 50 [] ("tok")).status = 404 ∧
    (Legacy.aceptar cfg0 50 [] ("tok") none none).status = 404 ∧
    getEntry store0 ("tok") = some row0 := by
  refine ⟨by decide, by decide, rfl⟩

/-- C4, amended (holds for the rehydrating handlers): the cache is consulted
first and, on a miss, the store; with the store reachable, read and accept
answer 404 exactly when the token is absent from both layers, and on a cache
miss with a store hit the cache ends up holding an entry for the token. -/
theorem C4_cache_then_store (cfg : Config) (now : Nat) (cache : Cache) (store : Store)
    (tok : String) (ip ua : Option String) :
    ((V2.getTyc cfg now cache store [] tok).status = 404 ↔
      (getEntry cache tok = none ∧ getEntry store tok = none)) ∧
    ((V2.aceptar cfg now cache store [] tok ip ua).status = 404 ↔
      (getEntry cache tok = none ∧ getEntry store tok = none)) ∧
    (∀ row : DbRow, getEntry cache tok = none → getEntry store tok = some row →
      (getEntry (V2.getTyc cfg now cache store [] tok).cache tok).isSome = true ∧
      (getEntry (V2.aceptar cfg now cache store [] tok ip ua).cache tok).isSome = true) := by
  refine ⟨?_, ?_, ?_⟩
  · cases hca : getEntry cache tok with
    | some s => simp [V2.getTyc, hca, getCore_status_ne_404]
    | none =>
      cases hst : getEntry store tok with
      | none => simp [V2.getTyc, hca, hst, qOk]
      | some row => simp [V2.getTyc, hca, hst, qOk, getCore_status_ne_404]
  · cases hca : getEntry cache tok with
    | some s => simp [V2.aceptar, hca, acceptCore_status_ne_404]
    | none =>
      cases hst : getEntry store tok with
      | none => simp [V2.aceptar, hca, hst, qOk]
      | some row => simp [V2.aceptar, hca, hst, qOk, acceptCore_status_ne_404]
  · intro row hca hst
    constructor
    · simp only [V2.getTyc, hca, hst, qOk, List.getD_nil, if_true]
      exact getCore_cache_keeps cfg now store [] 1 _ tok _
        (by simp [getEntry_setEntry_self])
    · simp only [V2.aceptar, hca, hst, qOk, List.getD_nil, if_true]
      exact acceptCore_cache_keeps cfg now store [] 1 _ tok ip ua _
        (by simp [getEntry_setEntry_self])

/-- C4, witness: at a concrete token absent from the cache but present in the
store, the read rehydrates the cache. -/
theorem C4_cache_then_store_witness :
    getEntry ([] : Cache) ("tok") = none ∧
    getEntry store0 ("tok") = some row0 ∧
    (getEntry (V2.getTyc cfg0 50 [] store0 [] ("tok")).cache ("tok")).isSome = true :=
  ⟨rfl, rfl, ((C4_cache_then_store cfg0 50 [] store0 ("tok") none none).2.2 row0 rfl rfl).1⟩

/-- Read of a stale record while the expiry UPDATE fails. -/
def c8run : V2.GetResult :=
  V2.getTyc cfg0 1000 [(("tok" : String), baseSol)] [] [false] ("tok")

/-- C8, counterexample: when the store write persisting the expiry transition
fails, the rehydrating read handler does not surface a persistence error — it
logs the failed write, still answers the ordinary 410 "expired" outcome and
still dispatches the webhook, refuting "expiration writes hard-fail to the
caller". -/
theorem C8_expiration_softfail_cex :
    c8run.status = 410 ∧
    c8run.webhooks.length = 1 ∧
    c8run.storeFailures = [.setExpirada ("tok")] ∧
    c8run.storeWrites = [] ∧
    c8run.store = [] := by
  decide

/-- C8, amended: creation and acceptance writes hard-fail to the caller (500,
no cache change, no dispatch); the expiry-persistence write and the opened-at
bookkeeping write soft-fail (the failure is logged and the operation proceeds
with its ordinary outcome). -/
theorem C8_persistence_failure_policy :
    (∀ (cfg : Config) (now : Nat) (token : String) (body : CreateBody)
       (cache : Cache) (store : Store),
      isBlank body.preclienteId = false → isBlank body.webhookUrl = false →
      (createSolicitud cfg now token body false cache store).status = 500 ∧
      (createSolicitud cfg now token body false cache store).cache = cache ∧
      (createSolicitud cfg now token body false cache store).store = store ∧
      (createSolicitud cfg now token body false cache store).storeWrites = []) ∧
    (∀ (cfg : Config) (now : Nat) (cache : Cache) (store : Store) (tok : String)
       (ip ua : Option String) (s : Solicitud),
      getEntry cache tok = some s → s.estado ≠ .ACEPTADA → s.acceptedAt = none →
      ¬ s.expiresAt < now →
      (V2.aceptar cfg now cache store [false] tok ip ua).status = 500 ∧
      (V2.aceptar cfg now cache store [false] tok ip ua).cache = cache ∧
      (V2.aceptar cfg now cache store [false] tok ip ua).store = store ∧
      (V2.aceptar cfg now cache store [false] tok ip ua).webhooks = []) ∧
    (∀ (cfg : Config) (now : Nat) (cache : Cache) (store : Store) (tok : String)
       (s : Solicitud),
      getEntry cache tok = some s → s.expiresAt < now →
      (s.estado = .CREADA ∨ s.estado = .ABIERTA) →
      (V2.getTyc cfg now cache store [false] tok).status = 410 ∧
      (V2.getTyc cfg now cache store [false] tok).webhooks =
        (sendWebhook cfg { s with estado := Estado.EXPIRADA } ("TYC_EXPIRADA")).toList ∧
      (V2.getTyc cfg now cache store [false] tok).store = store ∧
      (V2.getTyc cfg now cache store [false] tok).storeFailures = [.setExpirada tok] ∧
      (V2.getTyc cfg now cache store [false] tok).cache =
        setEntry cache tok { s with estado := Estado.EXPIRADA }) ∧
    (∀ (cfg : Config) (now : Nat) (cache : Cache) (store : Store) (tok : String)
       (s : Solicitud),
      getEntry cache tok = some s → ¬ s.expiresAt < now → s.estado = .CREADA →
      (V2.getTyc cfg now cache store [false] tok).status = 200 ∧
      (V2.getTyc cfg now cache store [false] tok).storeFailures = [.setOpened tok now] ∧
      (V2.getTyc cfg now cache store [false] tok).store = store) := by
  refine ⟨?_, ?_, ?_, ?_⟩
  · intro cfg now token body cache store h1 h2
    refine ⟨?_, ?_, ?_, ?_⟩ <;> simp [createSolicitud, h1, h2]
  · intro cfg now cache store tok ip ua s hc h1 h2 h3
    refine ⟨?_, ?_, ?_, ?_⟩ <;> simp [V2.aceptar, V2.acceptCore, hc, h1, h2, h3, qOk]
  · intro cfg now cache store tok s hc hexp hst
    rcases hst with h | h <;>
      (refine ⟨?_, ?_, ?_, ?_, ?_⟩ <;> simp [V2.getTyc, V2.getCore, hc, h, hexp, qOk])
  · intro cfg now cache store tok s hc hexp h
    refine ⟨?_, ?_, ?_⟩ <;> simp [V2.getTyc, V2.getCore, hc, h, hexp, qOk]

/-- C8, witness: the soft-fail expiry clause at a concrete stale record whose
persistence update fails. -/
theorem C8_persistence_failure_policy_witness :
    getEntry [(("tok" : String), baseSol)] ("tok") = some baseSol ∧
    baseSol.expiresAt < 1000 ∧
    ((V2.getTyc cfg0 1000 [(("tok" : String), baseSol)] [] [false] ("tok")).status = 410 ∧
     (V2.getTyc cfg0 1000 [(("tok" : String), baseSol)] [] [false] ("tok")).webhooks =
       (sendWebhook cfg0 { baseSol with estado := Estado.EXPIRADA } ("TYC_EXPIRADA")).toList ∧
     (V2.getTyc cfg0 1000 [(("tok" : String), baseSol)] [] [false] ("tok")).store = [] ∧
     (V2.getTyc cfg0 1000 [(("tok" : String), baseSol)] [] [false] ("tok")).storeFailures =
       [.setExpirada ("tok")] ∧
     (V2.getTyc cfg0 1000 [(("tok" : String), baseSol)] [] [false] ("tok")).cache =
       setEntry [(("tok" : String), baseSol)] ("tok")
         { baseSol with estado := Estado.EXPIRADA }) :=
  ⟨by decide, by decide,
   C8_persistence_failure_policy.2.2.1 cfg0 1000 [(("tok" : String), baseSol)] [] ("tok")
     baseSol (by decide) (by decide) (Or.inl (by decide))⟩

/-- C9: ACEPTADA is terminal — reads and accepts succeed even past the
deadline with no state change and no dispatch, the opened-at bookkeeping write
never moves a store row out of ACEPTADA, and the sweep neither counts nor
touches nor webhooks the record. -/
theorem C9_accepted_terminal (cfg : Config) (now : Nat) (cache : Cache) (store : Store)
    (fx : List Bool) (tok : String) (ip ua : Option String) (s : Solicitud)
    (hc : getEntry cache tok = some s) (hacc : s.estado = .ACEPTADA) :
    Legacy.getTyc cfg now cache tok =
      { status := 200, page := some s, cache := cache, storeWrites := [], webhooks := [] } ∧
    Legacy.aceptar cfg now cache tok ip ua =
      { status := 200,
        body := [("ok", .boolean true),
                 ("mensaje", .str ("Esta solicitud ya había sido aceptada previamente.")),
                 ("preclienteId", .str s.preclienteId),
                 ("tycSolicitudId", .str s.tycSolicitudId)],
        cache := cache, storeWrites := [], webhooks := [] } ∧
    V2.getTyc cfg now cache store fx tok =
      (if qOk fx 0 then
        { status := 200, page := some s, cache := cache,
          store := (applyWrite store (.setOpened tok now)).1,
          storeWrites := [.setOpened tok now], storeFailures := [], webhooks := [] }
       else
        { status := 200, page := some s, cache := cache, store := store,
          storeWrites := [], storeFailures := [.setOpened tok now], webhooks := [] }) ∧
    (∀ (st2 : Store) (k : String) (r r2 : DbRow),
      getEntry st2 k = some r → r.estado = .ACEPTADA →
      getEntry ((applyWrite st2 (.setOpened tok now)).1) k = some r2 →
      r2.estado = .ACEPTADA) ∧
    V2.aceptar cfg now cache store fx tok ip ua =
      { status := 200,
        body := [("ok", .boolean true),
                 ("mensaje", .str ("Esta solicitud ya había sido aceptada previamente.")),
                 ("preclienteId", .str s.preclienteId),
                 ("tycSolicitudId", .str s.tycSolicitudId),
                 ("acceptedAt", jxOptTime s.acceptedAt)],
        cache := cache, store := store, storeWrites := [], storeFailures := [],
        webhooks := [] } ∧
    ((cache.map Prod.fst).Nodup →
      getEntry (checkExpired cfg now cache).cache tok = some s ∧
      (checkExpired cfg now cache).webhooks = cache.filterMap (hookFn cfg now) ∧
      hookFn cfg now (tok, s) = none ∧
      elig now s = false) := by
  have he : elig now s = false := by simp [elig, hacc]
  refine ⟨?_, ?_, ?_, ?_, ?_, ?_⟩
  · simp [Legacy.getTyc, hc, hacc]
  · simp [Legacy.aceptar, hc, hacc]
  · cases hq : qOk fx 0 <;> simp [V2.getTyc, V2.getCore, hc, hacc, hq]
  · intro st2 k r r2 hr hrA h2
    simp only [applyWrite] at h2
    rw [getEntry_updWhere, hr] at h2
    by_cases hp : (r.token == tok) = true
    · simp only [hp, if_true, Option.map_some'] at h2
      cases h2
      simp [hrA]
    · have hp2 : (r.token == tok) = false := by
        simpa using hp
      simp only [hp2, Bool.false_eq_true, if_false, Option.map_some'] at h2
      cases h2
      exact hrA
  · simp [V2.aceptar, V2.acceptCore, hc, hacc]
  · intro hnd
    have hch := checkExpired_spec cfg now cache hnd
    refine ⟨?_, ?_, ?_, he⟩
    · rw [hch]
      simp only [getEntry_map_expStep, hc, Option.map_some']
      simp [he]
    · rw [hch]
    · simp [hookFn, he]

/-- C9, witness: a concrete accepted record, read and re-accepted past its
deadline, stays ACEPTADA and succeeds. -/
theorem C9_accepted_terminal_witness :
    getEntry [(("tok" : String), sAcc)] ("tok") = some sAcc ∧
    sAcc.estado = Estado.ACEPTADA ∧
    sAcc.expiresAt < 500 ∧
    Legacy.getTyc cfg0 500 [(("tok" : String), sAcc)] ("tok") =
      { status := 200, page := some sAcc, cache := [(("tok" : String), sAcc)],
        storeWrites := [], webhooks := [] } ∧
    Legacy.aceptar cfg0 500 [(("tok" : String), sAcc)] ("tok") none none =
      { status := 200,
        body := [("ok", .boolean true),
                 ("mensaje", .str ("Esta solicitud ya había sido aceptada previamente.")),
                 ("preclienteId", .str sAcc.preclienteId),
                 ("tycSolicitudId", .str sAcc.tycSolicitudId)],
        cache := [(("tok" : String), sAcc)], storeWrites := [], webhooks := [] } :=
  ⟨by decide, by decide, by decide,
   (C9_accepted_terminal cfg0 500 [(("tok" : String), sAcc)] store0 [] ("tok") none none sAcc
     (by decide) (by decide)).1,
   (C9_accepted_terminal cfg0 500 [(("tok" : String), sAcc)] store0 [] ("tok") none none sAcc
     (by decide) (by decide)).2.1⟩

/-- Request body for the creation witness. -/
def createBody0 : CreateBody :=
  { preclienteId := some ("PRE-1"), canal := none, ttlMinutos := some 60,
    webhookUrl := some ("https://n8n.example/webhook"), metadata := none }

/-- C10: the creation INSERT persists the raw token itself as the `token`
column, next to its SHA-256 digest in `token_hash`, and the creation response
echoes the raw token — so the raw secret is retained at rest in the store. -/
theorem C10_raw_token_persisted (cfg : Config) (now : Nat) (token : String)
    (body : CreateBody) (cache : Cache) (store : Store)
    (h1 : isBlank body.preclienteId = false) (h2 : isBlank body.webhookUrl = false) :
    ∃ row : DbRow,
      (createSolicitud cfg now token body true cache store).storeWrites = [.insertRow row] ∧
      row.token = token ∧
      row.token_hash = Sha256.sha256Hex token ∧
      (createSolicitud cfg now token body true cache store).store = store ++ [(token, row)] ∧
      getEntry (createSolicitud cfg now token body true cache store).body ("token") =
        some (.str token) := by
  simp only [createSolicitud, h1, h2, Bool.false_eq_true, if_false, if_true]
  refine ⟨_, rfl, rfl, rfl, rfl, ?_⟩
  rfl

/-- C10, witness: concrete creation run showing the raw token stored and
returned. -/
theorem C10_raw_token_persisted_witness :
    isBlank createBody0.preclienteId = false ∧
    isBlank createBody0.webhookUrl = false ∧
    (∃ row : DbRow,
      (createSolicitud cfg0 7 ("tok") createBody0 true [] []).storeWrites = [.insertRow row] ∧
      row.token = "tok" ∧
      row.token_hash = Sha256.sha256Hex ("tok") ∧
      (createSolicitud cfg0 7 ("tok") createBody0 true [] []).store = [] ++ [(("tok" : String), row)] ∧
      getEntry (createSolicitud cfg0 7 ("tok") createBody0 true [] []).body ("token") =
        some (.str ("tok"))) :=
  ⟨by decide, by decide,
   C10_raw_token_persisted cfg0 7 ("tok") createBody0 [] [] (by decide) (by decide)⟩

end Tyc


